import Mathlib

/-!
Shallow embedding of the pytorch-tutorials notebooks: the LeNet-style Net
module of the neural-networks notebook, its manual SGD update loop and the
optimiser training cell, the CIFAR-10 notebook's Normalize/imshow pair and
DataLoader configurations, and the tensor-basics notebook's CUDA guard cell.
Tensors are modelled by their shape together with the trace of framework
operations applied to them; parameter buffers and pixel values are rationals.
-/

namespace Blitz

/-- Framework operation recorded in a tensor's application trace. -/
inductive Op where
  | conv2d (inChannels outChannels kernel : Nat)
  | relu
  | maxPool2d (kernel : Nat)
  | view (features : Nat)
  | linear (inFeatures outFeatures : Nat)
  deriving DecidableEq

/-- Shape-and-trace model of a torch tensor. -/
structure Tensor where
  shape : List Nat
  trace : List Op
  deriving DecidableEq

/-- Layer record for nn.Conv2d(inChannels, outChannels, kernel): stride 1, no padding. -/
structure Conv2dL where
  inChannels : Nat
  outChannels : Nat
  kernel : Nat
  deriving DecidableEq

/-- Layer record for nn.Linear(inFeatures, outFeatures). -/
structure LinearL where
  inFeatures : Nat
  outFeatures : Nat
  deriving DecidableEq

/-- Shape semantics of a conv layer application: on a 4-d input, spatial size
becomes H - k + 1 (stride 1, no padding), channel count the layer's output
channels; the call is appended to the trace. -/
def conv2dApply (c : Conv2dL) (t : Tensor) : Tensor :=
  { shape :=
      match t.shape with
      | [n, _, h, w] => [n, c.outChannels, h - c.kernel + 1, w - c.kernel + 1]
      | s => s
    trace := t.trace ++ [Op.conv2d c.inChannels c.outChannels c.kernel] }

/-- Elementwise relu: shape preserved, call recorded. -/
def reluApply (t : Tensor) : Tensor :=
  { t with trace := t.trace ++ [Op.relu] }

/-- Max pooling over a square k window with stride k: spatial sizes divide by k. -/
def maxPool2dApply (k : Nat) (t : Tensor) : Tensor :=
  { shape :=
      match t.shape with
      | [n, c, h, w] => [n, c, h / k, w / k]
      | s => s
    trace := t.trace ++ [Op.maxPool2d k] }

/-- Reshape by x.view(-1, features): the leading dimension is inferred as
element count divided by the requested feature count. -/
def viewApply (features : Nat) (t : Tensor) : Tensor :=
  { shape := [t.shape.prod / features, features]
    trace := t.trace ++ [Op.view features] }

/-- Linear layer applied to a batched 2-d input: feature dimension becomes the
layer's output size. -/
def linearApply (l : LinearL) (t : Tensor) : Tensor :=
  { shape :=
      match t.shape with
      | [n, _] => [n, l.outFeatures]
      | s => s
    trace := t.trace ++ [Op.linear l.inFeatures l.outFeatures] }

/-- The Net module: the five named sub-layers assigned in its constructor. -/
structure Net where
  conv1 : Conv2dL
  conv2 : Conv2dL
  fc1 : LinearL
  fc2 : LinearL
  fc3 : LinearL
  deriving DecidableEq

/-- The notebook's net object, with the constructor arguments written in the
source: conv1 = Conv2d(1, 6, 5), conv2 = Conv2d(6, 16, 5),
fc1 = Linear(16 * 5 * 5, 120), fc2 = Linear(120, 84), fc3 = Linear(84, 10). -/
def net : Net :=
  { conv1 := ⟨1, 6, 5⟩
    conv2 := ⟨6, 16, 5⟩
    fc1 := ⟨16 * 5 * 5, 120⟩
    fc2 := ⟨120, 84⟩
    fc3 := ⟨84, 10⟩ }

/-- The five named sub-layers of a Net gathered as a tuple. -/
def netLayers (m : Net) : Conv2dL × Conv2dL × LinearL × LinearL × LinearL :=
  (m.conv1, m.conv2, m.fc1, m.fc2, m.fc3)

/-- Method num_flat_features of Net: take all dimensions except the batch
dimension, start from num_features = 1, and multiply them in. -/
def Net.num_flat_features (_self : Net) (x : Tensor) : Nat :=
  let size := x.shape.drop 1
  size.foldl (fun a s => a * s) 1

/-- Method forward of Net, line for line from the source: conv1, relu,
2x2 max pool, conv2, relu, 2x2 max pool, view to (-1, num_flat_features),
fc1, relu, fc2, relu, fc3. -/
def Net.forward (self : Net) (x : Tensor) : Tensor :=
  let x := maxPool2dApply 2 (reluApply (conv2dApply self.conv1 x))
  let x := maxPool2dApply 2 (reluApply (conv2dApply self.conv2 x))
  let x := viewApply (self.num_flat_features x) x
  let x := reluApply (linearApply self.fc1 x)
  let x := reluApply (linearApply self.fc2 x)
  let x := linearApply self.fc3 x
  x

/-- A learnable parameter: its value buffer and its gradient buffer. -/
structure Param where
  data : List ℚ
  grad : List ℚ
  deriving DecidableEq

/-- The learning rate of the manual update cell: 0.01. -/
def learning_rate : ℚ := 1 / 100

/-- One iteration of the manual update loop over net.parameters: the value
buffer is decremented in place by the gradient buffer times the learning rate. -/
def sub_scaled (lr : ℚ) (f : Param) : Param :=
  { f with data := f.data.zipWith (fun d g => d - g * lr) f.grad }

/-- The manual SGD update loop: one update per parameter returned by
net.parameters. -/
def manual_update (params : List Param) : List Param :=
  params.map (sub_scaled learning_rate)

/-- The network state the update loop runs against: the architecture and the
parameter list. -/
structure NetState where
  arch : Net
  params : List Param

/-- The manual update loop viewed as a transformer of the whole network state. -/
def manual_update_state (s : NetState) : NetState :=
  { s with params := manual_update s.params }

/-- The five delegated calls of the optimiser training cell. -/
inductive Event where
  | zero_grad
  | forward_pass
  | loss_mse
  | backward_pass
  | optimiser_step
  deriving DecidableEq

/-- In-session training state: parameters, last computed loss, call log. -/
structure Session where
  params : List Param
  loss : Option ℚ
  log : List Event

/-- Mean-squared-error criterion of nn.MSELoss: mean of squared differences
between output and target. -/
def mseLoss (output target : List ℚ) : ℚ :=
  (output.zipWith (fun o t => (o - t) ^ 2) target).sum / (output.length : ℚ)

/-- Call optimiser.zero_grad: every gradient buffer is zeroed. -/
def zeroGradCall (s : Session) : Session :=
  { s with params := s.params.map (fun f => { f with grad := f.grad.map (fun _ => 0) }),
           log := s.log ++ [Event.zero_grad] }

/-- Call output = net(input): the forward value is computed by the external
framework, so only the delegated call is recorded. -/
def forwardCall (s : Session) : Session :=
  { s with log := s.log ++ [Event.forward_pass] }

/-- Call loss = criterion(output, target) with criterion = nn.MSELoss(). -/
def lossCall (output target : List ℚ) (s : Session) : Session :=
  { s with loss := some (mseLoss output target),
           log := s.log ++ [Event.loss_mse] }

/-- Accumulation of one externally computed gradient into a parameter's
gradient buffer. -/
def accumGrad (p : Param × List ℚ) : Param :=
  { p.1 with grad := p.1.grad.zipWith (fun a b => a + b) p.2 }

/-- Call loss.backward: autograd accumulates externally computed gradients
into the gradient buffers. -/
def backwardCall (grads : List (List ℚ)) (s : Session) : Session :=
  { s with params := (s.params.zip grads).map accumGrad,
           log := s.log ++ [Event.backward_pass] }

/-- Call optimiser.step for optim.SGD(net.parameters(), lr=0.01). -/
def stepCall (s : Session) : Session :=
  { s with params := s.params.map (sub_scaled learning_rate),
           log := s.log ++ [Event.optimiser_step] }

/-- The optimiser training cell, in source order: zero_grad, forward, loss,
backward, step. -/
def training_step (output target : List ℚ) (grads : List (List ℚ)) (s : Session) : Session :=
  stepCall (backwardCall grads (lossCall output target (forwardCall (zeroGradCall s))))

/-- One channel of transforms.Normalize with mean 0.5 and std 0.5, from the
framework's documented semantics: p maps to (p - mean) / std. -/
def normalizeChannel (p : ℚ) : ℚ := (p - 1 / 2) / (1 / 2)

/-- The unnormalisation inside imshow: img / 2 + 0.5. -/
def imshowUnnormalize (v : ℚ) : ℚ := v / 2 + 1 / 2

/-- Configuration passed to torch.utils.data.DataLoader. -/
structure DataLoaderCfg where
  batch_size : Nat
  shuffle : Bool
  num_workers : Nat
  deriving DecidableEq

/-- The training loader: DataLoader(trainset, batch_size=4, shuffle=True,
num_workers=2). -/
def trainloader : DataLoaderCfg := { batch_size := 4, shuffle := true, num_workers := 2 }

/-- The test loader: DataLoader(testset, batch_size=4, shuffle=False,
num_workers=2). -/
def testloader : DataLoaderCfg := { batch_size := 4, shuffle := false, num_workers := 2 }

/-- The loader constructions are the only cells across the three notebooks that
request workers or any other form of parallelism. -/
def concurrencySources : List DataLoaderCfg := [trainloader, testloader]

/-- Device a tensor lives on. -/
inductive Device where
  | cpu
  | cuda
  deriving DecidableEq

/-- Observable outcome of the CUDA cell: where the two tensors end up, whether
their sum was printed, and whether a framework failure surfaced. -/
structure CudaCellResult where
  xDevice : Device
  yDevice : Device
  printedSum : Bool
  raisedError : Bool
  deriving DecidableEq

/-- The CUDA cell of the tensor notebook: two random CPU tensors are made; if
torch.cuda.is_available() both are moved to the GPU and their sum is printed,
otherwise nothing further happens. -/
def cudaCell (cudaAvailable : Bool) : CudaCellResult :=
  if cudaAvailable then
    { xDevice := Device.cuda, yDevice := Device.cuda, printedSum := true, raisedError := false }
  else
    { xDevice := Device.cpu, yDevice := Device.cpu, printedSum := false, raisedError := false }

/-- Linear layer with the framework's shape check: a 2-d input whose feature
dimension disagrees with the layer raises a size-mismatch error. -/
def linearCheck (l : LinearL) (t : Tensor) : Except String Tensor :=
  match t.shape with
  | [n, f] =>
      if f = l.inFeatures then
        Except.ok { shape := [n, l.outFeatures],
                    trace := t.trace ++ [Op.linear l.inFeatures l.outFeatures] }
      else
        Except.error "size mismatch"
  | _ => Except.error "size mismatch"

/-- The fully-connected tail of the forward pass with shape checks: the
notebook wraps no handling around the calls, so the first raised error is
returned as is. -/
def forwardFCCheck (self : Net) (t : Tensor) : Except String Tensor :=
  match linearCheck self.fc1 t with
  | Except.error e => Except.error e
  | Except.ok a =>
      match linearCheck self.fc2 (reluApply a) with
      | Except.error e => Except.error e
      | Except.ok b => linearCheck self.fc3 (reluApply b)

theorem zipWith_sub_mul_comm (l1 l2 : List ℚ) (c : ℚ) :
    l1.zipWith (fun d g => d - g * c) l2 = l1.zipWith (fun d g => d - c * g) l2 := by
  induction l1 generalizing l2 with
  | nil => simp
  | cons a t ih =>
      cases l2 with
      | nil => simp
      | cons b t2 => simp [ih, mul_comm]

/-- C1: the manual weight-update step replaces every parameter value by the
old value minus learning_rate times the parameter's gradient, with
learning_rate = 0.01, and updates each parameter of net.parameters exactly
once (the output list has the same length and position i depends only on
input position i). -/
theorem manual_update_sgd_rule (ps : List Param) (i : Nat) (f : Param)
    (hf : ps[i]? = some f) :
    learning_rate = 1 / 100 ∧
    (manual_update ps).length = ps.length ∧
    ∃ f2 : Param, (manual_update ps)[i]? = some f2 ∧
      f2.data = f.data.zipWith (fun d g => d - 1 / 100 * g) f.grad := by
  refine ⟨rfl, by simp [manual_update], ?_⟩
  refine ⟨sub_scaled learning_rate f, ?_, ?_⟩
  · simp [manual_update, hf]
  · simpa [sub_scaled, learning_rate] using zipWith_sub_mul_comm f.data f.grad (1 / 100)

/-- Witness for C1 at a concrete one-parameter network. -/
theorem manual_update_sgd_rule_witness :
    (([⟨[2], [3]⟩] : List Param))[0]? = some ⟨[2], [3]⟩ ∧
    (learning_rate = 1 / 100 ∧
      (manual_update [⟨[2], [3]⟩]).length = ([⟨[2], [3]⟩] : List Param).length ∧
      ∃ f2 : Param, (manual_update [⟨[2], [3]⟩])[0]? = some f2 ∧
        f2.data = List.zipWith (fun d g => d - 1 / 100 * g) [2] [3]) :=
  ⟨rfl, manual_update_sgd_rule [⟨[2], [3]⟩] 0 ⟨[2], [3]⟩ rfl⟩

/-- C2: on any input of the expected batched shape (n, 1, 32, 32) with a fresh
trace, the forward pass applies exactly conv1, relu, 2x2 max pool, conv2,
relu, 2x2 max pool, flatten to (batch, 400), fc1, relu, fc2, relu, fc3, in
this order, and nothing after fc3. -/
theorem net_forward_trace (x : Tensor) (n : Nat)
    (hs : x.shape = [n, 1, 32, 32]) (ht : x.trace = []) :
    (net.forward x).trace =
      [Op.conv2d 1 6 5, Op.relu, Op.maxPool2d 2,
       Op.conv2d 6 16 5, Op.relu, Op.maxPool2d 2,
       Op.view 400,
       Op.linear 400 120, Op.relu,
       Op.linear 120 84, Op.relu,
       Op.linear 84 10] := by
  rcases x with ⟨s, tr⟩
  simp only at hs ht
  subst hs
  subst ht
  rfl

/-- Witness for C2 at batch size one. -/
theorem net_forward_trace_witness :
    (Tensor.mk [1, 1, 32, 32] []).shape = [1, 1, 32, 32] ∧
    (net.forward (Tensor.mk [1, 1, 32, 32] [])).trace =
      [Op.conv2d 1 6 5, Op.relu, Op.maxPool2d 2,
       Op.conv2d 6 16 5, Op.relu, Op.maxPool2d 2,
       Op.view 400,
       Op.linear 400 120, Op.relu,
       Op.linear 120 84, Op.relu,
       Op.linear 84 10] :=
  ⟨rfl, net_forward_trace (Tensor.mk [1, 1, 32, 32] []) 1 rfl rfl⟩

/-- C3: the model holds exactly five named sub-layers with the stated
channel and feature sizes, and a Net is fully determined by those five
sub-layers (there is no other layer). -/
theorem net_layers_exact :
    net.conv1 = ⟨1, 6, 5⟩ ∧ net.conv2 = ⟨6, 16, 5⟩ ∧
    net.fc1 = ⟨16 * 5 * 5, 120⟩ ∧ net.fc2 = ⟨120, 84⟩ ∧ net.fc3 = ⟨84, 10⟩ ∧
    Function.Injective netLayers := by
  refine ⟨rfl, rfl, rfl, rfl, rfl, ?_⟩
  intro a b h
  cases a
  cases b
  simp only [netLayers, Prod.mk.injEq] at h
  obtain ⟨h1, h2, h3, h4, h5⟩ := h
  simp_all

/-- C4: shape compatibility between connected layers: for a 1-channel 32x32
batched input the conv1/pool/conv2/pool stack flattens to exactly 400
features, equal to fc1's input size 16 * 5 * 5; fc1's output size equals
fc2's input size, fc2's output size equals fc3's input size, and the whole
forward pass maps shape (n, 1, 32, 32) to (n, 10). -/
theorem net_shape_compat (n : Nat) :
    net.num_flat_features
      (maxPool2dApply 2 (reluApply (conv2dApply net.conv2
        (maxPool2dApply 2 (reluApply (conv2dApply net.conv1
          (Tensor.mk [n, 1, 32, 32] []))))))) = 400 ∧
    net.fc1.inFeatures = 16 * 5 * 5 ∧ net.fc1.inFeatures = 400 ∧
    net.fc1.outFeatures = net.fc2.inFeatures ∧
    net.fc2.outFeatures = net.fc3.inFeatures ∧
    (net.forward (Tensor.mk [n, 1, 32, 32] [])).shape = [n, 10] := by
  refine ⟨rfl, rfl, rfl, rfl, rfl, ?_⟩
  simp only [Net.forward, Net.num_flat_features, net, conv2dApply, reluApply,
    maxPool2dApply, viewApply, linearApply]
  norm_num

/-- C5: one run of the optimiser training cell performs, in order, exactly one
gradient zeroing, one forward pass, one MSE loss computation, one backward
pass and one parameter update, with the recorded loss the mean-squared error
between output and target. -/
theorem training_step_sequence (output target : List ℚ) (grads : List (List ℚ))
    (s : Session) :
    (training_step output target grads s).log =
      s.log ++ [Event.zero_grad, Event.forward_pass, Event.loss_mse,
        Event.backward_pass, Event.optimiser_step] ∧
    (training_step output target grads s).loss = some (mseLoss output target) := by
  constructor
  · simp [training_step, stepCall, backwardCall, lossCall, forwardCall, zeroGradCall]
  · simp [training_step, stepCall, backwardCall, lossCall, forwardCall, zeroGradCall]

/-- C6 counterexample: at the concrete input cudaAvailable = false, the CUDA
cell behaves differently from the available case and surfaces no framework
failure, so the notebook does branch on the missing-GPU condition instead of
letting a missing-GPU failure propagate to the output. -/
theorem cuda_guard_counterexample :
    cudaCell false ≠ cudaCell true ∧ (cudaCell false).raisedError = false := by
  decide

/-- C6 amended: no raised framework error is caught, retried or translated,
and a shape-mismatch failure propagates unchanged through the fully-connected
stack; the one environment-dependent branch is the CUDA cell, which tests
availability first and skips the GPU work, so a missing GPU yields a silent
CPU no-op rather than a propagated failure. -/
theorem error_propagation_amended (b : Bool) (t : Tensor) (e : String)
    (he : linearCheck net.fc1 t = Except.error e) :
    (cudaCell b).raisedError = false ∧
    (cudaCell b).printedSum = b ∧
    (cudaCell b).xDevice = cond b Device.cuda Device.cpu ∧
    forwardFCCheck net t = Except.error e := by
  refine ⟨?_, ?_, ?_, ?_⟩
  · cases b <;> rfl
  · cases b <;> rfl
  · cases b <;> rfl
  · simp [forwardFCCheck, he]

/-- Witness for the amended C6 at a concrete mismatched input with no GPU. -/
theorem error_propagation_amended_witness :
    linearCheck net.fc1 (Tensor.mk [1, 3] []) = Except.error "size mismatch" ∧
    ((cudaCell false).raisedError = false ∧
      (cudaCell false).printedSum = false ∧
      (cudaCell false).xDevice = cond false Device.cuda Device.cpu ∧
      forwardFCCheck net (Tensor.mk [1, 3] []) = Except.error "size mismatch") :=
  ⟨rfl, error_propagation_amended false (Tensor.mk [1, 3] []) "size mismatch" rfl⟩

/-- C7 counterexample: the claim that no notebook cell introduces concurrency
fails at the training DataLoader, which is constructed with two worker
processes rather than zero. -/
theorem dataloader_workers_counterexample : ¬ trainloader.num_workers = 0 := by
  decide

/-- C7 amended: data loading in the CIFAR-10 notebook is the one source of
concurrency: exactly the two DataLoaders request workers, each with
num_workers = 2; every other cell runs on the single notebook thread. -/
theorem concurrency_amended :
    concurrencySources = [trainloader, testloader] ∧
    concurrencySources.all (fun c => c.num_workers == 2) = true := by
  decide

/-- C8: on a tensor with at least one dimension, num_flat_features returns the
product of all dimensions except the first, and returns 1 when there is
exactly one dimension. -/
theorem num_flat_features_spec (x : Tensor) (_h : x.shape ≠ []) :
    net.num_flat_features x = (x.shape.drop 1).prod ∧
    (x.shape.length = 1 → net.num_flat_features x = 1) := by
  constructor
  · rw [List.prod_eq_foldl]
    rfl
  · intro h1
    obtain ⟨a, ha⟩ := List.length_eq_one.mp h1
    simp [Net.num_flat_features, ha]

/-- Witness for C8 at a one-dimensional tensor. -/
theorem num_flat_features_spec_witness :
    (Tensor.mk [3] []).shape ≠ [] ∧
    (net.num_flat_features (Tensor.mk [3] []) = ((Tensor.mk [3] []).shape.drop 1).prod ∧
      ((Tensor.mk [3] []).shape.length = 1 → net.num_flat_features (Tensor.mk [3] []) = 1)) :=
  ⟨by decide, num_flat_features_spec (Tensor.mk [3] []) (by decide)⟩

/-- C9: Normalize with mean 0.5 and std 0.5 sends a pixel value p in the unit
interval to 2p - 1, which lies in the interval from -1 to 1, and the imshow
unnormalisation maps it back to p, so the composite is the identity there. -/
theorem normalize_unnormalize_inverse (p : ℚ) (h0 : 0 ≤ p) (h1 : p ≤ 1) :
    normalizeChannel p = 2 * p - 1 ∧
    -1 ≤ normalizeChannel p ∧ normalizeChannel p ≤ 1 ∧
    imshowUnnormalize (normalizeChannel p) = p := by
  have heq : normalizeChannel p = 2 * p - 1 := by
    unfold normalizeChannel
    ring
  refine ⟨heq, ?_, ?_, ?_⟩
  · rw [heq]; linarith
  · rw [heq]; linarith
  · rw [heq]
    unfold imshowUnnormalize
    ring

/-- Witness for C9 at pixel value one quarter. -/
theorem normalize_unnormalize_inverse_witness :
    (0 : ℚ) ≤ 1 / 4 ∧ (1 / 4 : ℚ) ≤ 1 ∧
    (normalizeChannel (1 / 4) = 2 * (1 / 4) - 1 ∧
      -1 ≤ normalizeChannel (1 / 4) ∧ normalizeChannel (1 / 4) ≤ 1 ∧
      imshowUnnormalize (normalizeChannel (1 / 4)) = 1 / 4) :=
  ⟨by norm_num, by norm_num,
    normalize_unnormalize_inverse (1 / 4) (by norm_num) (by norm_num)⟩

/-- C10: the manual update loop mutates only the parameter value buffers: the
architecture is untouched, the parameter list keeps its length, and every
gradient buffer is unchanged. -/
theorem manual_update_frame (s : NetState) (i : Nat) (f : Param)
    (hf : s.params[i]? = some f) :
    (manual_update_state s).arch = s.arch ∧
    (manual_update_state s).params.length = s.params.length ∧
    ∃ f2 : Param, (manual_update_state s).params[i]? = some f2 ∧ f2.grad = f.grad := by
  refine ⟨rfl, by simp [manual_update_state, manual_update], ?_⟩
  exact ⟨sub_scaled learning_rate f, by simp [manual_update_state, manual_update, hf], rfl⟩

/-- Witness for C10 at a concrete one-parameter state. -/
theorem manual_update_frame_witness :
    ((NetState.mk net [⟨[1], [2]⟩]).params)[0]? = some ⟨[1], [2]⟩ ∧
    ((manual_update_state (NetState.mk net [⟨[1], [2]⟩])).arch = net ∧
      (manual_update_state (NetState.mk net [⟨[1], [2]⟩])).params.length = 1 ∧
      ∃ f2 : Param,
        (manual_update_state (NetState.mk net [⟨[1], [2]⟩])).params[0]? = some f2 ∧
        f2.grad = [2]) :=
  ⟨rfl, manual_update_frame (NetState.mk net [⟨[1], [2]⟩]) 0 ⟨[1], [2]⟩ rfl⟩

end Blitz
